import Mathlib

/-!
Shallow embedding of the MoneyMentor allocation-and-contribution engine.

Sources embedded here:
* the backend contribution calculators `calculate_sip` / `calculate_lumpsum`
  and the optimizer pipeline `optimize_portfolio` (quoted in the technical
  report shipped with the repository);
* the frontend planner code in `src/pages/InvestmentPlanner.tsx`
  (validation, goal projection, local rule-based fallback, hybrid plan);
* the goals store in `src/contexts/GoalsContext.tsx` (`updateGoal`).

Numeric conventions: JavaScript/Python floats are idealised as exact
rationals (`ℚ`) wherever every exponent is an integer, and as reals (`ℝ`,
with `Real.rpow` for `Math.pow` at fractional exponents) otherwise.
-/

namespace MoneyMentor

/-- Round half to even, as Python's builtin `round` does on floats. -/
def roundHalfEven (q : ℚ) : ℤ :=
  let f := ⌊q⌋
  let frac := q - f
  if frac < 1/2 then f
  else if 1/2 < frac then f + 1
  else if Even f then f else f + 1

/-- Python's `round(x, 2)`: round to two decimal places, half to even. -/
def pyRound2 (q : ℚ) : ℚ := (roundHalfEven (q * 100) : ℚ) / 100

/-- Result record of the backend `calculate_sip`. -/
structure SipResult where
  monthly_sip : ℚ
  total_invested : ℚ
  expected_wealth : ℚ
deriving DecidableEq, Repr

/-- Backend `calculate_sip(future_value, years, annual_return)`:
`monthly_return = annual_return / 12`, `months = years * 12`, and the
annuity-due inversion
`monthly_sip = future_value * monthly_return / (((1 + monthly_return)^months - 1) * (1 + monthly_return))`.
The Python code divides unconditionally; a zero denominator raises
`ZeroDivisionError`, modelled as `none`. -/
def calculate_sip (future_value : ℚ) (years : ℕ) (annual_return : ℚ) : Option SipResult :=
  let monthly_return := annual_return / 12
  let months := years * 12
  let numerator := future_value * monthly_return
  let denominator := ((1 + monthly_return) ^ months - 1) * (1 + monthly_return)
  if denominator = 0 then none
  else
    let monthly_sip := numerator / denominator
    let total_invested := monthly_sip * months
    let expected_wealth := future_value
    some { monthly_sip := pyRound2 monthly_sip
           total_invested := pyRound2 total_invested
           expected_wealth := pyRound2 expected_wealth }

/-- Result record of the backend `calculate_lumpsum`. -/
structure LumpsumResult where
  lumpsum_amount : ℚ
  total_invested : ℚ
  expected_wealth : ℚ
deriving DecidableEq, Repr

/-- Backend `calculate_lumpsum(future_value, years, annual_return)`:
`lumpsum_amount = future_value / ((1 + annual_return) ** years)`.
The Python code divides unconditionally; a zero denominator raises,
modelled as `none`. -/
def calculate_lumpsum (future_value : ℚ) (years : ℕ) (annual_return : ℚ) :
    Option LumpsumResult :=
  let denominator := (1 + annual_return) ^ years
  if denominator = 0 then none
  else
    let lumpsum_amount := future_value / denominator
    some { lumpsum_amount := pyRound2 lumpsum_amount
           total_invested := pyRound2 lumpsum_amount
           expected_wealth := pyRound2 future_value }

/-- Risk profiles accepted by the optimizer (keys of `equity_bounds`). -/
inductive RiskProfile
  | low
  | medium
  | high
deriving DecidableEq, Repr

/-- Time horizons accepted by the optimizer (keys of `time_adjustments`). -/
inductive TimeHorizon
  | short
  | medium
  | long
deriving DecidableEq, Repr

/-- Asset order used throughout the backend optimizer:
index 0 = Equity, 1 = Bonds, 2 = Gold, 3 = Cash. -/
def expected_returns : Fin 4 → ℚ := ![12/100, 7/100, 8/100, 4/100]

/-- Annualised volatilities, same asset order. -/
def volatilities : Fin 4 → ℚ := ![18/100, 5/100, 12/100, 1/100]

/-- The fixed correlation matrix of the optimizer. -/
def correlation_matrix : Fin 4 → Fin 4 → ℚ :=
  ![![1, -1/10, 3/10, 1/20],
    ![-1/10, 1, 2/10, 4/10],
    ![3/10, 2/10, 1, 1/10],
    ![1/20, 4/10, 1/10, 1]]

/-- `_build_covariance_matrix`: `cov[i][j] = corr[i][j] * vol[i] * vol[j]`. -/
def build_covariance_matrix (i j : Fin 4) : ℚ :=
  correlation_matrix i j * (volatilities i * volatilities j)

/-- Equity weight interval keyed by risk profile. -/
def equity_bounds : RiskProfile → ℚ × ℚ
  | .low => (0, 30/100)
  | .medium => (20/100, 60/100)
  | .high => (40/100, 80/100)

/-- Additive equity-bound adjustment keyed by time horizon. -/
def time_adjustments : TimeHorizon → ℚ
  | .short => -(10/100)
  | .medium => 0
  | .long => 10/100

/-- The constrained-QP instance handed to `scipy.optimize.minimize`:
per-asset bound intervals, the minimum-return constraint, and the
equal-weight initial guess. -/
structure SolverProblem where
  bounds : Fin 4 → ℚ × ℚ
  required_return : ℚ
  initial : Fin 4 → ℚ
deriving DecidableEq

/-- Outcome of one `scipy.optimize.minimize` call: convergence flag
`result.success` and the weight vector `result.x`. -/
structure SolverOutcome where
  success : Bool
  x : Fin 4 → ℚ
deriving DecidableEq

/-- The QP instance `optimize_portfolio` builds for a request: equity bounds
adjusted additively by the time horizon then clamped to `[0, 1]`, the fixed
bounds for Bonds/Gold/Cash, the required return, and equal initial weights. -/
def mkSolverProblem (risk_profile : RiskProfile) (time_horizon : TimeHorizon)
    (required_return : ℚ) : SolverProblem :=
  let eb := equity_bounds risk_profile
  let adjustment := time_adjustments time_horizon
  let equity_max := min 1 (eb.2 + adjustment)
  let equity_min := max 0 (eb.1 + adjustment)
  { bounds := ![(equity_min, equity_max), (0, 50/100), (0, 30/100), (0, 40/100)]
    required_return := required_return
    initial := ![1/4, 1/4, 1/4, 1/4] }

/-- Result record of `optimize_portfolio`. `portfolio_risk` in the source is
the square root of `portfolio_variance`; the claims only concern the weights
and the status, so the variance is kept in exact arithmetic. -/
structure OptResult where
  status : String
  portfolio : Fin 4 → ℚ
  expected_return : ℚ
  portfolio_variance : ℚ
deriving DecidableEq

/-- Modelled from the spec: the body of `_rule_based_allocation` does not
appear in the repository sources (only its call site in
`optimize_portfolio` does). Per the spec it is a fixed lookup table keyed
by risk profile — low → {equity 0.20, bonds 0.50, alt 0.15, cash 0.15},
medium → {0.45, 0.20, 0.25, 0.10}, high → {0.70, 0.10, 0.15, 0.05} — with
expected return and variance computed from the same `μ` and `Σ` as the
solver, and status `rule_based`. -/
def rule_based_allocation (risk_profile : RiskProfile) : OptResult :=
  let w : Fin 4 → ℚ :=
    match risk_profile with
    | .low => ![20/100, 50/100, 15/100, 15/100]
    | .medium => ![45/100, 20/100, 25/100, 10/100]
    | .high => ![70/100, 10/100, 15/100, 5/100]
  { status := "rule_based"
    portfolio := w
    expected_return := ∑ i, expected_returns i * w i
    portfolio_variance := ∑ i, ∑ j, w i * build_covariance_matrix i j * w j }

/-- Backend `PortfolioOptimizer.optimize_portfolio`, with the numeric SLSQP
solve abstracted as `solver`: the pipeline builds one QP instance, calls the
solver once, and on `result.success` returns the solver weights with status
`optimal`; otherwise it returns `_rule_based_allocation(risk_profile)`
directly (no retry appears in the source). -/
def optimize_portfolio (solver : SolverProblem → SolverOutcome)
    (risk_profile : RiskProfile) (time_horizon : TimeHorizon)
    (required_return : ℚ) : OptResult :=
  let result := solver (mkSolverProblem risk_profile time_horizon required_return)
  if result.success then
    { status := "optimal"
      portfolio := result.x
      expected_return := ∑ i, expected_returns i * result.x i
      portfolio_variance := ∑ i, ∑ j, result.x i * build_covariance_matrix i j * result.x j }
  else
    rule_based_allocation risk_profile

/-! ## Frontend: `src/pages/InvestmentPlanner.tsx` -/

/-- The "now" instant as the page reads it from `new Date()`:
`year = getFullYear()`, `month0 = getMonth()` (0-indexed). -/
structure NowDate where
  year : ℤ
  month0 : ℕ
deriving DecidableEq, Repr

/-- The planner form state consumed by `handleCalculate`. Text inputs are
modelled as `Option` values: `none` stands for the empty string (which is
falsy in JavaScript), `some v` for a non-empty string parsing to `v` —
note that the string "0" is truthy and becomes `some 0`. -/
structure PlannerInput where
  goalType : String
  customGoalName : String
  goalAmount : Option ℚ
  targetYear : Option ℤ
  targetMonth : Option ℕ
  riskAppetite : String
  investmentType : String
  lumpsumAvailable : Option ℚ
deriving DecidableEq, Repr

/-- `minYear = Math.max(2026, currentYear)`. -/
def minYear (now : NowDate) : ℤ := max 2026 now.year

/-- The input checks at the top of `handleCalculate`, in source order;
`some title` is the destructive toast shown on rejection, `none` means the
calculation proceeds. -/
def handleCalculateValidation (inp : PlannerInput) (now : NowDate) : Option String :=
  if inp.goalAmount = none ∨ inp.targetYear = none ∨ inp.goalType = "" ∨
      inp.riskAppetite = "" ∨ inp.targetMonth = none then
    some "Missing Information"
  else if inp.goalType = "custom" ∧ inp.customGoalName.trim = "" then
    some "Missing Goal Name"
  else if inp.targetYear.getD 0 < minYear now then
    some "Invalid Year"
  else if inp.targetYear.getD 0 = now.year ∧
      (inp.targetMonth.getD 0 : ℤ) ≤ now.month0 + 1 then
    some "Invalid Target Month"
  else
    none

/-- `getMonthsToTarget`: 0 when no target year is set; otherwise the month
difference to the first of the target month (an empty month input parses to
December), floored at 0 by `Math.max(months, 0)`. -/
def getMonthsToTarget (now : NowDate) (targetYear : Option ℤ)
    (targetMonth : Option ℕ) : ℤ :=
  match targetYear with
  | none => 0
  | some ty =>
    let monthValue : ℕ := targetMonth.getD 12
    let months : ℤ := (ty - now.year) * 12 + ((monthValue : ℤ) - 1 - now.month0)
    max months 0

/-- JavaScript `x || d` on an optional number: `undefined` and the falsy
value `0` both yield the default. -/
def jsOr (x : Option ℚ) (d : ℚ) : ℚ :=
  match x with
  | none => d
  | some v => if v = 0 then d else v

/-- The initial `inflationRates` table of the page (the backend may replace
it at runtime; these are the shipped defaults). -/
def defaultInflationRates : String → Option ℚ := fun s =>
  if s = "car" then some (55/1000)
  else if s = "house" then some (726/10000)
  else if s = "education" then some (115/1000)
  else if s = "gold" then some (1403/10000)
  else if s = "custom" then some (6/100)
  else none

/-- Result record of `calculateInflatedValue`. -/
structure InflatedValue where
  futureValue : ℝ
  inflationRate : ℚ
  years : ℚ
  months : ℤ

/-- `calculateInflatedValue`: months to target, fractional years
`months / 12`, the goal-type inflation rate with `|| 0.06` default, and
`futureValue = currentAmount * Math.pow(1 + inflationRate, years)`. -/
noncomputable def calculateInflatedValue (rates : String → Option ℚ)
    (goalAmount : ℚ) (goalType : String) (now : NowDate)
    (targetYear : Option ℤ) (targetMonth : Option ℕ) : InflatedValue :=
  let months := getMonthsToTarget now targetYear targetMonth
  let years : ℚ := months / 12
  let inflationRate := jsOr (rates goalType) (6/100)
  { futureValue := (goalAmount : ℝ) * (1 + (inflationRate : ℝ)) ^ ((years : ℚ) : ℝ)
    inflationRate := inflationRate
    years := years
    months := months }

/-- The hard-coded `fallbackAllocations` object of the offline fallback
path. Frontend asset order: index 0 = Equity, 1 = Gold, 2 = Bonds,
3 = Cash (the key order of the source literals). -/
noncomputable def fallbackAllocationsTable (risk : String) : Option (Fin 4 → ℝ) :=
  if risk = "low" then some ![20/100, 15/100, 50/100, 15/100]
  else if risk = "medium" then some ![45/100, 25/100, 20/100, 10/100]
  else if risk = "high" then some ![70/100, 15/100, 10/100, 5/100]
  else none

/-- `fallbackAllocations[riskAppetite] || fallbackAllocations.medium`. -/
noncomputable def fallbackAllocation (risk : String) : Fin 4 → ℝ :=
  (fallbackAllocationsTable risk).getD ![45/100, 25/100, 20/100, 10/100]

/-- The `assetReturns` constants of the fallback path, frontend asset
order (Equity 0.12, Gold 0.08, Bonds 0.065, Cash 0.055). -/
noncomputable def frontendAssetReturns : Fin 4 → ℝ := ![12/100, 8/100, 65/1000, 55/1000]

/-- Fallback expected return: `Σ w_a * assetReturns[a]` over the four
allocation entries (every key is present, so the `|| 0.06` default for an
unknown asset key is dead code). -/
noncomputable def fallbackExpectedReturn (risk : String) : ℝ :=
  ∑ i, fallbackAllocation risk i * frontendAssetReturns i

/-- Fallback portfolio risk: 0.14 for high, 0.09 for medium, 0.05 otherwise. -/
noncomputable def fallbackPortfolioRisk (risk : String) : ℝ :=
  if risk = "high" then 14/100 else if risk = "medium" then 9/100 else 5/100

/-- The fallback-path SIP amount (lines 298-300 of the planner):
`r = expectedReturn / 12`, `n = Math.max(months, 12)`,
`monthlySip = r > 0 ? futureValue * r / (Math.pow(1 + r, n) - 1) : futureValue / n`. -/
noncomputable def fallbackMonthlySip (futureValue expectedReturn : ℝ) (months : ℕ) : ℝ :=
  let r := expectedReturn / 12
  let n := max months 12
  if 0 < r then futureValue * r / ((1 + r) ^ n - 1) else futureValue / n

/-- The fallback-path lumpsum amount (line 301 of the planner):
`futureValue / Math.pow(1 + expectedReturn, Math.max(years, 1))`.
The exponent is a real power since `years` may be fractional. -/
noncomputable def fallbackLumpsumAmount (futureValue expectedReturn years : ℝ) : ℝ :=
  futureValue / (1 + expectedReturn) ^ (max years 1)

/-- The supplemental-SIP formula of the hybrid branch:
`r > 0 ? (futureValue - projectedGrowth) * r / (Math.pow(1 + r, n) - 1)
       : (futureValue - projectedGrowth) / n`
(the API path uses `n = months`, the fallback path `n = Math.max(months, 12)`). -/
def sipToFillGap {K : Type} [LinearOrderedField K]
    (futureValue projectedGrowth r : K) (n : ℕ) : K :=
  if 0 < r then (futureValue - projectedGrowth) * r / ((1 + r) ^ n - 1)
  else (futureValue - projectedGrowth) / n

/-- The `PortfolioRecommendation` record the fallback path fabricates
locally. (`monthly_sip` and `lumpsum_amount` are additionally passed
through `Math.round` for display; the whole-rupee rounding is not
modelled.) -/
structure PortfolioRecommendation where
  portfolio : Fin 4 → ℝ
  expected_return : ℝ
  portfolio_risk : ℝ
  monthly_sip : ℝ
  lumpsum_amount : ℝ
  optimization_status : String
  message : String

/-- The offline fallback recommendation built in the `catch` branch of
`handleCalculate` (lines 286-311): rule-based allocation, dot-product
expected return, profile-keyed risk, SIP and lumpsum amounts, status
`rule_based`. -/
noncomputable def frontendFallbackRecommendation (riskAppetite : String)
    (futureValue years : ℝ) (months : ℕ) : PortfolioRecommendation :=
  let allocation := fallbackAllocation riskAppetite
  let expectedReturn := ∑ i, allocation i * frontendAssetReturns i
  { portfolio := allocation
    expected_return := expectedReturn
    portfolio_risk := fallbackPortfolioRisk riskAppetite
    monthly_sip := fallbackMonthlySip futureValue expectedReturn months
    lumpsum_amount := fallbackLumpsumAmount futureValue expectedReturn years
    optimization_status := "rule_based"
    message := "Calculated locally (backend unavailable)" }

/-- `projectedGrowth = available * Math.pow(1 + expectedReturn, years)`
(real power: `years` may be fractional). -/
noncomputable def projectedGrowth (available expectedReturn years : ℝ) : ℝ :=
  available * (1 + expectedReturn) ^ years

/-- Outcome of the hybrid-strategy check: the `isHybrid` flag, the goal's
stored lumpsum amount, and the supplemental SIP (absent when no shortfall). -/
structure HybridOutcome where
  isHybrid : Bool
  lumpsumAmount : ℝ
  hybridSip : Option ℝ

/-- The hybrid-strategy check of `handleCalculate` (both paths): when a
lumpsum user supplies an available amount whose projected growth falls
short of the goal, the goal is marked hybrid, its lumpsum amount is
replaced by the available amount, and the gap is covered by
`Math.max(0, sipToFillGap)` (the page stores `Math.round` of this value;
the whole-rupee rounding is not modelled). Otherwise the base goal is
kept unchanged. -/
noncomputable def hybridUpdate (baseLumpsum available expectedReturn futureValue years : ℝ)
    (n : ℕ) : HybridOutcome :=
  let pg := projectedGrowth available expectedReturn years
  if pg < futureValue then
    { isHybrid := true
      lumpsumAmount := available
      hybridSip := some (max 0 (sipToFillGap futureValue pg (expectedReturn / 12) n)) }
  else
    { isHybrid := false, lumpsumAmount := baseLumpsum, hybridSip := none }

/-! ## Goals store: `src/contexts/GoalsContext.tsx` -/

/-- Goal lifecycle status. -/
inductive GoalStatus
  | ongoing
  | completed
deriving DecidableEq, Repr

/-- Payment/contribution status. -/
inductive PayStatus
  | paid
  | pending
deriving DecidableEq, Repr

/-- One scheduled SIP payment. -/
structure SipPayment where
  month : String
  amount : ℚ
  status : PayStatus
deriving DecidableEq, Repr

/-- Contribution kind. -/
inductive ContributionType
  | sip
  | lumpsum
deriving DecidableEq, Repr

/-- One recorded contribution. -/
structure Contribution where
  date : String
  amount : ℚ
  type : ContributionType
  status : Option PayStatus
deriving DecidableEq, Repr

/-- The `Goal` interface of `GoalsContext.tsx`; optional fields are
`Option`-typed, numbers are exact rationals, the portfolio map is an
association list. -/
structure Goal where
  id : String
  goalType : String
  goalName : Option String
  goalAmount : ℚ
  targetYear : ℤ
  targetMonth : Option ℕ
  riskProfile : String
  investmentType : String
  inflationRate : Option ℚ
  inflatedValue : Option ℚ
  years : Option ℚ
  portfolio : Option (List (String × ℚ))
  expectedReturn : Option ℚ
  portfolioRisk : Option ℚ
  monthlySip : Option ℚ
  lumpsumAmount : Option ℚ
  lumpsumAvailable : Option ℚ
  message : Option String
  optimizationStatus : Option String
  isLocked : Option Bool
  status : Option GoalStatus
  createdAt : Option String
  sipStartDate : Option String
  sipPayments : Option (List SipPayment)
  contributions : Option (List Contribution)
  lastInflationUpdate : Option String
deriving DecidableEq, Repr

/-- `Partial<Goal>`: each field is present (`some`) or absent (`none`);
for already-optional `Goal` fields the payload is itself an `Option`. -/
structure GoalPatch where
  id : Option String
  goalType : Option String
  goalName : Option (Option String)
  goalAmount : Option ℚ
  targetYear : Option ℤ
  targetMonth : Option (Option ℕ)
  riskProfile : Option String
  investmentType : Option String
  inflationRate : Option (Option ℚ)
  inflatedValue : Option (Option ℚ)
  years : Option (Option ℚ)
  portfolio : Option (Option (List (String × ℚ)))
  expectedReturn : Option (Option ℚ)
  portfolioRisk : Option (Option ℚ)
  monthlySip : Option (Option ℚ)
  lumpsumAmount : Option (Option ℚ)
  lumpsumAvailable : Option (Option ℚ)
  message : Option (Option String)
  optimizationStatus : Option (Option String)
  isLocked : Option (Option Bool)
  status : Option (Option GoalStatus)
  createdAt : Option (Option String)
  sipStartDate : Option (Option String)
  sipPayments : Option (Option (List SipPayment))
  contributions : Option (Option (List Contribution))
  lastInflationUpdate : Option (Option String)
deriving DecidableEq, Repr

/-- The spread `{ ...g, ...updatedGoal, id: g.id }`: every patched field
overrides the goal's, and `id` is forced back to the original `g.id`
regardless of any `id` carried by the patch. -/
def applyPatch (g : Goal) (p : GoalPatch) : Goal :=
  { id := g.id
    goalType := p.goalType.getD g.goalType
    goalName := p.goalName.getD g.goalName
    goalAmount := p.goalAmount.getD g.goalAmount
    targetYear := p.targetYear.getD g.targetYear
    targetMonth := p.targetMonth.getD g.targetMonth
    riskProfile := p.riskProfile.getD g.riskProfile
    investmentType := p.investmentType.getD g.investmentType
    inflationRate := p.inflationRate.getD g.inflationRate
    inflatedValue := p.inflatedValue.getD g.inflatedValue
    years := p.years.getD g.years
    portfolio := p.portfolio.getD g.portfolio
    expectedReturn := p.expectedReturn.getD g.expectedReturn
    portfolioRisk := p.portfolioRisk.getD g.portfolioRisk
    monthlySip := p.monthlySip.getD g.monthlySip
    lumpsumAmount := p.lumpsumAmount.getD g.lumpsumAmount
    lumpsumAvailable := p.lumpsumAvailable.getD g.lumpsumAvailable
    message := p.message.getD g.message
    optimizationStatus := p.optimizationStatus.getD g.optimizationStatus
    isLocked := p.isLocked.getD g.isLocked
    status := p.status.getD g.status
    createdAt := p.createdAt.getD g.createdAt
    sipStartDate := p.sipStartDate.getD g.sipStartDate
    sipPayments := p.sipPayments.getD g.sipPayments
    contributions := p.contributions.getD g.contributions
    lastInflationUpdate := p.lastInflationUpdate.getD g.lastInflationUpdate }

/-- `updateGoal(id, updatedGoal)`:
`goals.map(g => g.id === id ? { ...g, ...updatedGoal, id: g.id } : g)`. -/
def updateGoal (goals : List Goal) (id : String) (updatedGoal : GoalPatch) : List Goal :=
  goals.map fun g => if g.id = id then applyPatch g updatedGoal else g

/-! ## Concrete sample inputs used by witnesses and counterexamples -/

/-- A solver stub that always converges to equal weights. -/
def demoOkSolver : SolverProblem → SolverOutcome := fun _ =>
  { success := true, x := ![1/4, 1/4, 1/4, 1/4] }

/-- A solver stub that converges exactly when the return constraint is at
most 0.103 — the maximum return achievable under the medium/medium bounds
(equity 0.6, gold 0.3, bonds 0.1) — and fails for any stricter `R_min`. -/
def demoRetrySolver : SolverProblem → SolverOutcome := fun p =>
  if p.required_return ≤ 103/1000 then
    { success := true, x := ![60/100, 10/100, 30/100, 0] }
  else
    { success := false, x := p.initial }

/-- A planner request with a non-positive goal amount (the literal input
string "0") and a risk-appetite token outside {low, medium, high}. -/
def c9Request : PlannerInput :=
  { goalType := "car"
    customGoalName := ""
    goalAmount := some 0
    targetYear := some 2030
    targetMonth := some 6
    riskAppetite := "aggressive"
    investmentType := "sip"
    lumpsumAvailable := none }

/-- A sample stored goal with id "a". -/
def exGoalA : Goal :=
  { id := "a", goalType := "car", goalName := none, goalAmount := 1000000
    targetYear := 2030, targetMonth := some 6, riskProfile := "medium"
    investmentType := "sip", inflationRate := some (55/1000)
    inflatedValue := some 1215506, years := some 4
    portfolio := some [("Equity", 45/100), ("Gold", 25/100), ("Bonds", 20/100), ("Cash", 10/100)]
    expectedReturn := some (925/10000), portfolioRisk := some (9/100)
    monthlySip := some 21381, lumpsumAmount := some 893517
    lumpsumAvailable := none, message := none
    optimizationStatus := some "optimal", isLocked := some false
    status := some .ongoing, createdAt := none, sipStartDate := none
    sipPayments := some [], contributions := some []
    lastInflationUpdate := none }

/-- A second sample stored goal with id "b". -/
def exGoalB : Goal :=
  { exGoalA with id := "b", goalType := "house", goalAmount := 5000000 }

/-- A sample patch that tries to smuggle in a different `id`. -/
def exPatch : GoalPatch :=
  { id := some "zzz"
    goalType := none, goalName := none, goalAmount := some 1100000
    targetYear := none, targetMonth := none, riskProfile := none
    investmentType := none, inflationRate := none, inflatedValue := none
    years := none, portfolio := none, expectedReturn := none
    portfolioRisk := none, monthlySip := none, lumpsumAmount := none
    lumpsumAvailable := none, message := none, optimizationStatus := none
    isLocked := some (some true), status := none, createdAt := none
    sipStartDate := none, sipPayments := none, contributions := none
    lastInflationUpdate := none }

/-! ## Shared helper lemmas -/

/-- The weights of the modelled `_rule_based_allocation` sum to 1 exactly. -/
theorem ruleBasedWeightsSum (rp : RiskProfile) :
    ∑ i, (rule_based_allocation rp).portfolio i = 1 := by
  cases rp <;> norm_num [rule_based_allocation, Fin.sum_univ_four]

/-- The frontend fallback table (with its `|| medium` default) sums to 1
exactly for every risk-appetite string. -/
theorem fallbackAllocationSum (risk : String) :
    ∑ i, fallbackAllocation risk i = 1 := by
  unfold fallbackAllocation fallbackAllocationsTable
  split_ifs <;> simp [Fin.sum_univ_four] <;> norm_num

/-- `_rule_based_allocation` always reports status `rule_based`. -/
theorem ruleBasedStatus (rp : RiskProfile) :
    (rule_based_allocation rp).status = "rule_based" := by
  cases rp <;> rfl

/-- Cancellation scheme shared by the annuity identities:
`(a·r/D)·(D/r) = a` when `r, D ≠ 0`. -/
theorem annuityCancel {K : Type} [Field K] (a r D : K) (hr : r ≠ 0) (hD : D ≠ 0) :
    a * r / D * (D / r) = a := by
  have h : a * r / D * (D / r) = a * (r * D) / (r * D) := by ring
  rw [h, mul_div_assoc, div_self (mul_ne_zero hr hD), mul_one]

/-! ## Claim theorems -/

/-- C1: on every result-producing path — the solver's `optimal` path
(whose equality constraint `Σw = 1` the converged solver satisfies within
tolerance), the rule-based fallback inside the optimizer, and the local
offline fallback of the planner page — the returned weights sum to 1
within 1e-6. -/
theorem c1_weights_sum_one :
    (∀ (solver : SolverProblem → SolverOutcome) (rp : RiskProfile)
        (th : TimeHorizon) (rr : ℚ),
      ((solver (mkSolverProblem rp th rr)).success = true →
        |(∑ i, (solver (mkSolverProblem rp th rr)).x i) - 1| ≤ 1/1000000) →
      |(∑ i, (optimize_portfolio solver rp th rr).portfolio i) - 1| ≤ 1/1000000) ∧
    (∀ rp : RiskProfile, ∑ i, (rule_based_allocation rp).portfolio i = 1) ∧
    (∀ risk : String, ∑ i, fallbackAllocation risk i = 1) := by
  refine ⟨?_, ruleBasedWeightsSum, fallbackAllocationSum⟩
  intro solver rp th rr h
  by_cases hs : (solver (mkSolverProblem rp th rr)).success = true
  · simpa [optimize_portfolio, hs] using h hs
  · simp only [optimize_portfolio, Bool.not_eq_true] at hs ⊢
    rw [hs]
    simp [ruleBasedWeightsSum rp]

/-- C1 witness: a converged solver returning equal weights yields a
portfolio whose weights sum to 1 within 1e-6. -/
theorem c1_witness :
    |(∑ i, (optimize_portfolio demoOkSolver .medium .medium (8/100)).portfolio i) - 1|
      ≤ 1/1000000 :=
  c1_weights_sum_one.1 demoOkSolver .medium .medium (8/100)
    (fun _ => by norm_num [demoOkSolver, Fin.sum_univ_four])

/-- C2 counterexample: a solver that fails at the requested `R_min = 0.20`
but converges at the relaxed `R_min = 0.103` (the maximum return achievable
under the medium/medium bounds, attained by the feasible weights
(0.6, 0.1, 0.3, 0)). The claimed single relaxed retry would make this
request end with status `optimal`; the pipeline instead returns the
rule-based fallback immediately. -/
theorem c2_counterexample :
    (demoRetrySolver (mkSolverProblem .medium .medium (20/100))).success = false ∧
    (demoRetrySolver (mkSolverProblem .medium .medium (103/1000))).success = true ∧
    (∑ i, expected_returns i * (demoRetrySolver (mkSolverProblem .medium .medium (103/1000))).x i)
      = 103/1000 ∧
    (∑ i, (demoRetrySolver (mkSolverProblem .medium .medium (103/1000))).x i) = 1 ∧
    (optimize_portfolio demoRetrySolver .medium .medium (20/100)).status = "rule_based" ∧
    (optimize_portfolio demoRetrySolver .medium .medium (20/100)).status ≠ "optimal" := by
  refine ⟨?_, ?_, ?_, ?_, ?_, ?_⟩ <;>
    norm_num [demoRetrySolver, mkSolverProblem, optimize_portfolio, rule_based_allocation,
      expected_returns, Fin.sum_univ_four]
  decide

/-- C2 amended: the optimizer performs no relaxed retry — if the single
solver call does not succeed it hands off to the rule-based fallback
immediately; the pipeline is total and every result carries status
`optimal` or `rule_based` (so no exception escapes, the worst case being
`rule_based`). -/
theorem c2_no_retry (solver : SolverProblem → SolverOutcome) (rp : RiskProfile)
    (th : TimeHorizon) (rr : ℚ) :
    ((solver (mkSolverProblem rp th rr)).success = false →
      optimize_portfolio solver rp th rr = rule_based_allocation rp) ∧
    ((optimize_portfolio solver rp th rr).status = "optimal" ∨
      (optimize_portfolio solver rp th rr).status = "rule_based") := by
  constructor
  · intro hs
    simp [optimize_portfolio, hs]
  · by_cases hs : (solver (mkSolverProblem rp th rr)).success = true
    · left
      simp [optimize_portfolio, hs]
    · right
      simp only [Bool.not_eq_true] at hs
      simp [optimize_portfolio, hs, ruleBasedStatus]

/-- C2 witness: for the concrete solver that fails at `R_min = 0.20`, the
pipeline result is exactly the rule-based allocation. -/
theorem c2_witness :
    optimize_portfolio demoRetrySolver .medium .medium (20/100) =
      rule_based_allocation .medium :=
  (c2_no_retry demoRetrySolver .medium .medium (20/100)).1
    (by norm_num [demoRetrySolver, mkSolverProblem])

/-- C3: the frontend fallback allocator is a fixed lookup table keyed by
risk profile only — low → (equity 0.20, alt/gold 0.15, bonds 0.50,
cash 0.15), medium → (0.45, 0.25, 0.20, 0.10), high →
(0.70, 0.15, 0.10, 0.05), in the frontend asset order Equity, Gold,
Bonds, Cash — every profile sums exactly to 1, the produced
recommendation always has status `rule_based`, and the path is total
(never fails). -/
theorem c3_fallback_allocator :
    fallbackAllocation "low" = ![20/100, 15/100, 50/100, 15/100] ∧
    fallbackAllocation "medium" = ![45/100, 25/100, 20/100, 10/100] ∧
    fallbackAllocation "high" = ![70/100, 15/100, 10/100, 5/100] ∧
    (∀ risk : String, ∑ i, fallbackAllocation risk i = 1) ∧
    (∀ (risk : String) (fv y : ℝ) (m : ℕ),
      (frontendFallbackRecommendation risk fv y m).optimization_status = "rule_based" ∧
      (frontendFallbackRecommendation risk fv y m).portfolio = fallbackAllocation risk) := by
  refine ⟨?_, ?_, ?_, fallbackAllocationSum, fun risk fv y m => ⟨rfl, rfl⟩⟩ <;>
    simp [fallbackAllocation, fallbackAllocationsTable]

/-- C5 counterexample: the backend `calculate_sip` divides by the extra
annuity-due factor `(1 + r)`. At `FV = 8190`, `years = 1`,
`annual_return = 12` (so `r = 1`, `n = 12`), the claimed formula
`FV·r/((1+r)^n − 1)` gives 2, but the code returns a monthly amount of 1. -/
theorem c5_counterexample :
    calculate_sip 8190 1 12 = some ⟨1, 12, 8190⟩ ∧
    (8190 : ℚ) * (12/12) / ((1 + 12/12) ^ (1 * 12) - 1) = 2 ∧
    (1 : ℚ) ≠ 2 := by
  refine ⟨?_, by norm_num, by norm_num⟩
  norm_num [calculate_sip, pyRound2, roundHalfEven]

/-- C5 amended: the frontend fallback path returns the ordinary-annuity
amount `FV·r/((1+r)^n − 1)` with `n = max(months, 12)`, and that amount
compounded for `n` months at rate `r` reproduces `FV` exactly; the backend
`calculate_sip` instead returns the annuity-due amount
`FV·r/(((1+r)^n − 1)·(1+r))` (rounded to two decimals), which satisfies
the annuity-due identity. -/
theorem c5_recurring_formula (fv er : ℝ) (m : ℕ) (FVq ar : ℚ) (y : ℕ)
    (her : 0 < er) (har : 0 < ar) (hy : 1 ≤ y) :
    fallbackMonthlySip fv er m = fv * (er/12) / ((1 + er/12) ^ (max m 12) - 1) ∧
    fallbackMonthlySip fv er m * (((1 + er/12) ^ (max m 12) - 1) / (er/12)) = fv ∧
    calculate_sip FVq y ar =
      some { monthly_sip :=
               pyRound2 (FVq * (ar/12) / (((1 + ar/12) ^ (y * 12) - 1) * (1 + ar/12)))
             total_invested :=
               pyRound2 (FVq * (ar/12) / (((1 + ar/12) ^ (y * 12) - 1) * (1 + ar/12)) * (y * 12))
             expected_wealth := pyRound2 FVq } ∧
    FVq * (ar/12) / (((1 + ar/12) ^ (y * 12) - 1) * (1 + ar/12)) *
      ((((1 + ar/12) ^ (y * 12) - 1) * (1 + ar/12)) / (ar/12)) = FVq := by
  have hr : (0:ℝ) < er / 12 := by positivity
  have hrq : (0:ℚ) < ar / 12 := by positivity
  have hpow : (1:ℝ) < (1 + er/12) ^ (max m 12) := by
    apply one_lt_pow₀ (by linarith)
    omega
  have hpowq : (1:ℚ) < (1 + ar/12) ^ (y * 12) := by
    apply one_lt_pow₀ (by linarith)
    omega
  have hD : ((1:ℝ) + er/12) ^ (max m 12) - 1 ≠ 0 := by linarith
  have hDq : ((1:ℚ) + ar/12) ^ (y * 12) - 1 ≠ 0 := by linarith
  have hDq2 : (((1:ℚ) + ar/12) ^ (y * 12) - 1) * (1 + ar/12) ≠ 0 :=
    mul_ne_zero hDq (by linarith)
  have hsip : fallbackMonthlySip fv er m =
      fv * (er/12) / ((1 + er/12) ^ (max m 12) - 1) := by
    simp [fallbackMonthlySip, hr]
  refine ⟨hsip, ?_, ?_, ?_⟩
  · rw [hsip]
    exact annuityCancel fv (er/12) ((1 + er/12) ^ (max m 12) - 1) (ne_of_gt hr) hD
  · rw [calculate_sip]
    simp only [if_neg hDq2]
    norm_num
  · exact annuityCancel FVq (ar/12) (((1 + ar/12) ^ (y * 12) - 1) * (1 + ar/12))
      (ne_of_gt hrq) hDq2

/-- C5 witness: the amended statement evaluated at `FV = 8190`,
`expected_return = 12` (monthly rate 1), one year. -/
theorem c5_witness :
    fallbackMonthlySip 8190 12 12 = 8190 * ((12:ℝ)/12) / ((1 + (12:ℝ)/12) ^ (max 12 12) - 1) ∧
    fallbackMonthlySip 8190 12 12 * (((1 + (12:ℝ)/12) ^ (max 12 12) - 1) / ((12:ℝ)/12)) = 8190 ∧
    calculate_sip 8190 1 12 =
      some { monthly_sip :=
               pyRound2 (8190 * ((12:ℚ)/12) / (((1 + (12:ℚ)/12) ^ (1 * 12) - 1) * (1 + (12:ℚ)/12)))
             total_invested :=
               pyRound2 (8190 * ((12:ℚ)/12) / (((1 + (12:ℚ)/12) ^ (1 * 12) - 1) * (1 + (12:ℚ)/12)) * (1 * 12))
             expected_wealth := pyRound2 8190 } ∧
    (8190:ℚ) * ((12:ℚ)/12) / (((1 + (12:ℚ)/12) ^ (1 * 12) - 1) * (1 + (12:ℚ)/12)) *
      ((((1 + (12:ℚ)/12) ^ (1 * 12) - 1) * (1 + (12:ℚ)/12)) / ((12:ℚ)/12)) = 8190 :=
  c5_recurring_formula 8190 12 12 8190 12 1 (by norm_num) (by norm_num) (by norm_num)

/-- C8: in the contribution arithmetic of the planner page every division
is guarded — when the expected return is 0 the recurring amount falls back
to the linear formula `FV/n` (and the hybrid supplemental amount to
`gap/n`), and when `r > 0` the guarded denominator `(1+r)^n − 1` is
nonzero, so the (total) calculation never raises. -/
theorem c8_division_guards (fv pg er : ℝ) (m n : ℕ) (hn : 1 ≤ n) :
    (er = 0 → fallbackMonthlySip fv er m = fv / (max m 12 : ℕ)) ∧
    (er = 0 → sipToFillGap fv pg (er/12) n = (fv - pg) / n) ∧
    (0 < er/12 → (1 + er/12) ^ n - 1 ≠ 0) ∧
    (0 < er/12 → (1 + er/12) ^ (max m 12) - 1 ≠ 0) := by
  refine ⟨?_, ?_, ?_, ?_⟩
  · intro h
    subst h
    simp [fallbackMonthlySip]
  · intro h
    subst h
    simp [sipToFillGap]
  · intro hr
    have : (1:ℝ) < (1 + er/12) ^ n := by
      apply one_lt_pow₀ (by linarith)
      omega
    linarith
  · intro hr
    have : (1:ℝ) < (1 + er/12) ^ (max m 12) := by
      apply one_lt_pow₀ (by linarith)
      omega
    linarith

/-- C8 witness: the guards evaluated at expected return 0 (a 100-rupee
goal over the minimum 12-month window, a 50-rupee gap over 5 months) and
at a positive monthly rate. -/
theorem c8_witness :
    fallbackMonthlySip 100 0 0 = 100 / ((max 0 12 : ℕ) : ℝ) ∧
    sipToFillGap 100 50 ((0:ℝ)/12) 5 = (100 - 50) / (5:ℕ) ∧
    ((1:ℝ) + 12/12) ^ (5:ℕ) - 1 ≠ 0 := by
  have h := c8_division_guards 100 50 (0:ℝ) 0 5 (by norm_num)
  have h2 := c8_division_guards 100 50 (12:ℝ) 0 5 (by norm_num)
  exact ⟨h.1 rfl, h.2.1 rfl, by simpa using h2.2.2.1 (by norm_num)⟩

/-- C4: when a lumpsum user's available amount `A` grows to
`A·(1+r)^years < FV`, the plan is marked hybrid, its lumpsum amount is set
to `A`, the supplemental monthly amount is the recurring formula applied to
the gap `FV − A·(1+r)^years`, and the projected growth plus the compounded
value of those supplemental contributions reproduces `FV` exactly. -/
theorem c4_hybrid_shortfall (baseLumpsum available er fv years : ℝ) (n : ℕ)
    (hshort : projectedGrowth available er years < fv) (her : 0 < er) (hn : 1 ≤ n) :
    (hybridUpdate baseLumpsum available er fv years n).isHybrid = true ∧
    (hybridUpdate baseLumpsum available er fv years n).lumpsumAmount = available ∧
    (hybridUpdate baseLumpsum available er fv years n).hybridSip =
      some (sipToFillGap fv (projectedGrowth available er years) (er/12) n) ∧
    projectedGrowth available er years +
      sipToFillGap fv (projectedGrowth available er years) (er/12) n *
        (((1 + er/12) ^ n - 1) / (er/12)) = fv := by
  have hr : (0:ℝ) < er/12 := by positivity
  have hpow : (1:ℝ) < (1 + er/12) ^ n := by
    apply one_lt_pow₀ (by linarith)
    omega
  have hD : ((1:ℝ) + er/12) ^ n - 1 ≠ 0 := by linarith
  have hgap : 0 < fv - projectedGrowth available er years := by linarith
  have hsip : sipToFillGap fv (projectedGrowth available er years) (er/12) n =
      (fv - projectedGrowth available er years) * (er/12) / ((1 + er/12) ^ n - 1) := by
    simp [sipToFillGap, hr]
  have hsippos : 0 ≤ sipToFillGap fv (projectedGrowth available er years) (er/12) n := by
    rw [hsip]
    apply div_nonneg (mul_nonneg hgap.le hr.le) (by linarith)
  refine ⟨?_, ?_, ?_, ?_⟩
  · simp [hybridUpdate, hshort]
  · simp [hybridUpdate, hshort]
  · simp [hybridUpdate, hshort, max_eq_right hsippos]
  · rw [hsip]
    have hc := annuityCancel (fv - projectedGrowth available er years) (er/12)
      ((1 + er/12) ^ n - 1) (ne_of_gt hr) hD
    linarith

/-- C4 witness: 1 rupee available at a 1200% expected return over one year
grows to 13 < 1000, forcing the hybrid plan, and the supplemental
annuity closes the gap exactly. -/
theorem c4_witness :
    (hybridUpdate 0 1 12 1000 1 12).isHybrid = true ∧
    (hybridUpdate 0 1 12 1000 1 12).lumpsumAmount = 1 ∧
    (hybridUpdate 0 1 12 1000 1 12).hybridSip =
      some (sipToFillGap 1000 (projectedGrowth 1 12 1) ((12:ℝ)/12) 12) ∧
    projectedGrowth 1 12 1 +
      sipToFillGap 1000 (projectedGrowth 1 12 1) ((12:ℝ)/12) 12 *
        (((1 + (12:ℝ)/12) ^ 12 - 1) / ((12:ℝ)/12)) = 1000 :=
  c4_hybrid_shortfall 0 1 12 1000 1 12
    (by rw [projectedGrowth, Real.rpow_one]; norm_num) (by norm_num) (by norm_num)

/-- C6 counterexample: the fallback lumpsum uses the exponent
`Math.max(years, 1)`, so at `FV = 4`, `expected_return = 1`,
`years = 1/2` the code returns `4/2 = 2`, not the claimed
`FV/(1+r)^years = 4/2^(1/2) = 2·√2`. -/
theorem c6_counterexample :
    fallbackLumpsumAmount 4 1 (1/2) ≠ 4 / ((1:ℝ) + 1) ^ ((1:ℝ)/2) := by
  have hmax : max ((1:ℝ)/2) 1 = 1 := by norm_num
  have hL : fallbackLumpsumAmount 4 1 (1/2) = 2 := by
    rw [fallbackLumpsumAmount, hmax, Real.rpow_one]
    norm_num
  rw [hL]
  intro h
  have hpos : (0:ℝ) < ((1:ℝ) + 1) ^ ((1:ℝ)/2) :=
    Real.rpow_pos_of_pos (by norm_num) _
  have h2 : ((1:ℝ) + 1) ^ ((1:ℝ)/2) = 2 := by
    field_simp at h
    linarith
  have h4 : (((1:ℝ) + 1) ^ ((1:ℝ)/2)) ^ (2:ℕ) = 2 := by
    rw [← Real.rpow_natCast (((1:ℝ) + 1) ^ ((1:ℝ)/2)) 2, ← Real.rpow_mul (by norm_num)]
    norm_num
  rw [h2] at h4
  norm_num at h4

/-- C6 amended: the fallback lumpsum equals `FV/(1+r)^max(years, 1)`; for
every plan with `years ≥ 1` this is `FV/(1+r)^years`, compounding it at
the expected return over `years` reproduces `FV` exactly, and it equals
`FV` when the return is 0. The backend `calculate_lumpsum` returns
`FV/(1+r)^years` rounded to two decimals (`FV` itself when `r = 0`). -/
theorem c6_lumpsum_roundtrip (fv er years : ℝ) (FVq ar : ℚ) (y : ℕ)
    (hy : 1 ≤ years) (her : 0 < 1 + er) (har : 0 < 1 + ar) :
    fallbackLumpsumAmount fv er years = fv / (1 + er) ^ years ∧
    fallbackLumpsumAmount fv er years * (1 + er) ^ years = fv ∧
    (er = 0 → fallbackLumpsumAmount fv er years = fv) ∧
    calculate_lumpsum FVq y ar =
      some { lumpsum_amount := pyRound2 (FVq / (1 + ar) ^ y)
             total_invested := pyRound2 (FVq / (1 + ar) ^ y)
             expected_wealth := pyRound2 FVq } ∧
    (ar = 0 → calculate_lumpsum FVq y ar =
      some { lumpsum_amount := pyRound2 FVq
             total_invested := pyRound2 FVq
             expected_wealth := pyRound2 FVq }) := by
  have hmax : max years 1 = years := max_eq_left hy
  have hL : fallbackLumpsumAmount fv er years = fv / (1 + er) ^ years := by
    rw [fallbackLumpsumAmount, hmax]
  have hpow : (0:ℝ) < (1 + er) ^ years := Real.rpow_pos_of_pos her years
  have hpq : ((1:ℚ) + ar) ^ y ≠ 0 := pow_ne_zero y (ne_of_gt har)
  refine ⟨hL, ?_, ?_, ?_, ?_⟩
  · rw [hL, div_mul_cancel₀ _ (ne_of_gt hpow)]
  · intro h0
    subst h0
    rw [hL]
    norm_num [Real.one_rpow]
  · simp only [calculate_lumpsum, if_neg hpq]
  · intro h0
    subst h0
    simp [calculate_lumpsum]

/-- C6 witness: the amended statement at `FV = 16`, return 100%, 2 years:
the lumpsum is 4 and compounds back to 16. -/
theorem c6_witness :
    fallbackLumpsumAmount 16 1 2 = 16 / ((1:ℝ) + 1) ^ (2:ℝ) ∧
    fallbackLumpsumAmount 16 1 2 * ((1:ℝ) + 1) ^ (2:ℝ) = 16 ∧
    ((1:ℝ) = 0 → fallbackLumpsumAmount 16 1 2 = 16) ∧
    calculate_lumpsum 16 2 1 =
      some { lumpsum_amount := pyRound2 (16 / ((1:ℚ) + 1) ^ 2)
             total_invested := pyRound2 (16 / ((1:ℚ) + 1) ^ 2)
             expected_wealth := pyRound2 16 } ∧
    ((1:ℚ) = 0 → calculate_lumpsum 16 2 1 =
      some { lumpsum_amount := pyRound2 16
             total_invested := pyRound2 16
             expected_wealth := pyRound2 16 }) :=
  c6_lumpsum_roundtrip 16 1 2 16 1 2 (by norm_num) (by norm_num) (by norm_num)

/-- C7: the goal projector computes months to target floored at 0 (never
negative), fractional years `months/12`, and
`FV = P·(1+i)^(months/12)` where `i` is the goal type's configured
inflation rate, defaulting to 0.06 when the goal type has none (the table
carries no zero rates, so the JavaScript falsy-`||` lookup agrees with
that default rule). -/
theorem c7_goal_projector (rates : String → Option ℚ) (amount : ℚ) (goalType : String)
    (now : NowDate) (ty : Option ℤ) (tm : Option ℕ)
    (h : ∀ r : ℚ, rates goalType = some r → r ≠ 0) :
    0 ≤ getMonthsToTarget now ty tm ∧
    (calculateInflatedValue rates amount goalType now ty tm).months =
      getMonthsToTarget now ty tm ∧
    (calculateInflatedValue rates amount goalType now ty tm).years =
      (getMonthsToTarget now ty tm : ℚ) / 12 ∧
    (calculateInflatedValue rates amount goalType now ty tm).inflationRate =
      (rates goalType).getD (6/100) ∧
    (calculateInflatedValue rates amount goalType now ty tm).futureValue =
      (amount : ℝ) * (1 + (((rates goalType).getD (6/100) : ℚ) : ℝ)) ^
        ((getMonthsToTarget now ty tm : ℝ) / 12) := by
  have hrate : jsOr (rates goalType) (6/100) = (rates goalType).getD (6/100) := by
    cases hg : rates goalType with
    | none => rfl
    | some r => simp [jsOr, h r hg]
  have hmonths : 0 ≤ getMonthsToTarget now ty tm := by
    cases ty with
    | none => simp [getMonthsToTarget]
    | some v =>
      simp only [getMonthsToTarget]
      exact le_max_right _ 0
  have hexp : (((getMonthsToTarget now ty tm : ℚ) / 12 : ℚ) : ℝ) =
      (getMonthsToTarget now ty tm : ℝ) / 12 := by
    push_cast
    ring
  refine ⟨hmonths, rfl, rfl, ?_, ?_⟩
  · simp [calculateInflatedValue, hrate]
  · show (amount : ℝ) * (1 + (jsOr (rates goalType) (6/100) : ℝ)) ^
        (((getMonthsToTarget now ty tm : ℚ) / 12 : ℚ) : ℝ) = _
    rw [hrate, hexp]

/-- C7 witness: a car goal (5.5% configured inflation) placed 24 months
out from October 2026. -/
theorem c7_witness :
    0 ≤ getMonthsToTarget ⟨2026, 9⟩ (some 2028) (some 10) ∧
    (calculateInflatedValue defaultInflationRates 100 "car" ⟨2026, 9⟩
        (some 2028) (some 10)).months = getMonthsToTarget ⟨2026, 9⟩ (some 2028) (some 10) ∧
    (calculateInflatedValue defaultInflationRates 100 "car" ⟨2026, 9⟩
        (some 2028) (some 10)).years =
      (getMonthsToTarget ⟨2026, 9⟩ (some 2028) (some 10) : ℚ) / 12 ∧
    (calculateInflatedValue defaultInflationRates 100 "car" ⟨2026, 9⟩
        (some 2028) (some 10)).inflationRate =
      (defaultInflationRates "car").getD (6/100) ∧
    (calculateInflatedValue defaultInflationRates 100 "car" ⟨2026, 9⟩
        (some 2028) (some 10)).futureValue =
      (100 : ℝ) * (1 + (((defaultInflationRates "car").getD (6/100) : ℚ) : ℝ)) ^
        ((getMonthsToTarget ⟨2026, 9⟩ (some 2028) (some 10) : ℝ) / 12) :=
  c7_goal_projector defaultInflationRates 100 "car" ⟨2026, 9⟩ (some 2028) (some 10)
    (by
      intro r hr
      simp [defaultInflationRates] at hr
      subst hr
      norm_num)

/-- C9 counterexample: a request with goal amount 0 (non-positive) and the
unknown risk token "aggressive" passes every validation check, and the
pipeline still produces a full result: future value 0, a complete
rule-based portfolio (the medium fallback row), status `rule_based`. -/
theorem c9_counterexample :
    handleCalculateValidation c9Request ⟨2026, 9⟩ = none ∧
    (calculateInflatedValue defaultInflationRates 0 c9Request.goalType ⟨2026, 9⟩
        c9Request.targetYear c9Request.targetMonth).futureValue = 0 ∧
    (frontendFallbackRecommendation c9Request.riskAppetite 0 (44/12) 44).optimization_status
      = "rule_based" ∧
    (frontendFallbackRecommendation c9Request.riskAppetite 0 (44/12) 44).portfolio
      = ![45/100, 25/100, 20/100, 10/100] := by
  refine ⟨?_, ?_, rfl, ?_⟩
  · simp [handleCalculateValidation, c9Request, minYear]
  · simp [calculateInflatedValue]
  · show fallbackAllocation "aggressive" = _
    simp [fallbackAllocation, fallbackAllocationsTable]

/-- C9 amended: the planner rejects exactly these requests — one of the
required fields empty, a custom goal without a name, a target year below
the minimum year, or a same-year target month that is not in the future.
Non-positive goal values, unknown risk tokens and sub-year horizons pass
validation (unknown risk tokens later fall back to the medium allocation
and `years` is clamped to ≥ 1 for the backend call). -/
theorem c9_validation (inp : PlannerInput) (now : NowDate) :
    handleCalculateValidation inp now = none ↔
      (inp.goalAmount ≠ none ∧ inp.targetYear ≠ none ∧ inp.goalType ≠ "" ∧
       inp.riskAppetite ≠ "" ∧ inp.targetMonth ≠ none ∧
       (inp.goalType = "custom" → inp.customGoalName.trim ≠ "") ∧
       minYear now ≤ inp.targetYear.getD 0 ∧
       ¬(inp.targetYear.getD 0 = now.year ∧
         (inp.targetMonth.getD 0 : ℤ) ≤ now.month0 + 1)) := by
  unfold handleCalculateValidation
  split_ifs with h1 h2 h3 h4 <;> simp_all
  tauto

/-- C10: `updateGoal` preserves the list length and order, leaves every
goal with a different id untouched, and the patched goal keeps its
original id even when the patch carries an `id` field. -/
theorem c10_updateGoal_frame (gs : List Goal) (id : String) (p : GoalPatch) :
    (updateGoal gs id p).length = gs.length ∧
    (∀ (k : ℕ) (g : Goal), gs[k]? = some g → g.id ≠ id →
      (updateGoal gs id p)[k]? = some g) ∧
    (∀ k : ℕ, ((updateGoal gs id p)[k]?).map Goal.id = (gs[k]?).map Goal.id) := by
  refine ⟨List.length_map _ _, ?_, ?_⟩
  · intro k g hk hne
    rw [updateGoal, List.getElem?_map, hk]
    simp [hne]
  · intro k
    rw [updateGoal, List.getElem?_map]
    cases h : gs[k]? with
    | none => rfl
    | some g =>
      by_cases hg : g.id = id
      · simp [hg, applyPatch]
      · simp [hg]

/-- C10 witness: patching goal "a" in a two-goal list (with a patch that
tries to set `id := "zzz"`) keeps the length, leaves goal "b" untouched,
and position 0 still carries id "a". -/
theorem c10_witness :
    (updateGoal [exGoalA, exGoalB] "a" exPatch).length = 2 ∧
    (updateGoal [exGoalA, exGoalB] "a" exPatch)[1]? = some exGoalB ∧
    ((updateGoal [exGoalA, exGoalB] "a" exPatch)[0]?).map Goal.id = some "a" := by
  have h := c10_updateGoal_frame [exGoalA, exGoalB] "a" exPatch
  refine ⟨h.1, h.2.1 1 exGoalB rfl (by decide), ?_⟩
  have h3 := h.2.2 0
  rw [h3]
  rfl

end MoneyMentor
